import Mathlib

/-!
Verification development for the MovieAtlas movie-discovery front-end.

The definitions below are shallow embeddings of the Python sources
(`main.py`, `api_utils.py`, `utils.py`): query dictionaries become
insertion-ordered association lists, Streamlit session state becomes an
explicit structure with the transitions of the callbacks, remote HTTP
responses become an `Option Json` oracle argument (`none` models any
transport/HTTP/JSON-decode failure swallowed by `_make_api_request`),
and Python runtime errors (KeyError, TypeError, ...) become an `Except`
error type.
-/

set_option autoImplicit false

namespace MovieAtlas

/-- Values stored in a query-parameter dictionary: strings, floats
(modelled as rationals, exact for the decimal literals the app uses),
and ints — mirroring the mixed value types of the Python dicts. -/
inductive QVal where
  | str (s : String)
  | rat (x : ℚ)
  | int (n : Int)
deriving DecidableEq, Repr

/-- A Python dict with string keys, as an insertion-ordered association list.
All dicts the app builds start from a literal with distinct keys and are
updated through `Dict.setKey`, which reproduces Python assignment. -/
abbrev Dict := List (String × QVal)

/-- Python dict assignment `d[k] = v`: replaces the value in place if the
key is present, appends at the end otherwise. -/
def Dict.setKey : Dict → String → QVal → Dict
  | [], k, v => [(k, v)]
  | p :: rest, k, v => if p.1 = k then (k, v) :: rest else p :: Dict.setKey rest k v

/-- Python dict read `d.get(k)` / `d[k]` (the app only deletes or reads
keys it knows may be present). -/
def Dict.lookup : Dict → String → Option QVal
  | [], _ => none
  | p :: rest, k => if p.1 = k then some p.2 else Dict.lookup rest k

/-- Python membership test `k in d`. -/
def Dict.hasKey (d : Dict) (k : String) : Bool :=
  d.any (fun p => p.1 = k)

/-- Python `del d[k]` (guarded in the source by `k in d`, so deleting an
absent key never happens; removal of an absent key is the identity). -/
def Dict.delKey : Dict → String → Dict
  | [], _ => []
  | p :: rest, k => if p.1 = k then Dict.delKey rest k else p :: Dict.delKey rest k

theorem Dict.lookup_setKey (d : Dict) (k k2 : String) (v : QVal) :
    (d.setKey k v).lookup k2 = if k2 = k then some v else d.lookup k2 := by
  induction d with
  | nil =>
    by_cases h : k2 = k
    · subst h; simp [Dict.setKey, Dict.lookup]
    · have h2 : k ≠ k2 := fun e => h e.symm
      simp [Dict.setKey, Dict.lookup, h, h2]
  | cons p rest ih =>
    by_cases h1 : p.1 = k
    · by_cases h : k2 = k
      · subst h; simp [Dict.setKey, Dict.lookup, h1]
      · have h2 : k ≠ k2 := fun e => h e.symm
        simp [Dict.setKey, Dict.lookup, h1, h, h2]
    · by_cases hp : p.1 = k2
      · have hk : k2 ≠ k := fun e => h1 (hp.trans e)
        simp [Dict.setKey, Dict.lookup, h1, hp, hk]
      · simp [Dict.setKey, Dict.lookup, h1, hp, ih]

theorem Dict.lookup_delKey (d : Dict) (k k2 : String) :
    (d.delKey k).lookup k2 = if k2 = k then none else d.lookup k2 := by
  induction d with
  | nil => simp [Dict.delKey, Dict.lookup]
  | cons p rest ih =>
    by_cases h1 : p.1 = k
    · by_cases h : k2 = k
      · subst h; simp [Dict.delKey, Dict.lookup, h1, ih]
      · have h2 : k ≠ k2 := fun e => h e.symm
        simp [Dict.delKey, Dict.lookup, h1, h, h2, ih]
    · by_cases hp : p.1 = k2
      · have hk : k2 ≠ k := fun e => h1 (hp.trans e)
        simp [Dict.delKey, Dict.lookup, h1, hp, hk]
      · simp [Dict.delKey, Dict.lookup, h1, hp, ih]

theorem Dict.lookup_ite (c : Prop) [Decidable c] (d1 d2 : Dict) (k : String) :
    Dict.lookup (if c then d1 else d2) k
      = if c then d1.lookup k else d2.lookup k := by
  split <;> rfl

/-! ## Query Builder (`main.py`)

Module-level catalogs: `GENRES` (loaded from the API, here a parameter),
the fixed language table, and the mood table with its derived
`MOOD_TO_GENRE_IDS` mapping. -/

/-- `SUPPORTED_LANGUAGES` from `main.py`. -/
def SUPPORTED_LANGUAGES : List (String × String) :=
  [("English", "en"), ("Hindi", "hi"), ("Telugu", "te"),
   ("Tamil", "ta"), ("Malayalam", "ml")]

/-- The fixed mood-name → genre-name lists used to build
`MOOD_TO_GENRE_IDS` in `main.py`. -/
def moodTable : List (String × List String) :=
  [("Exciting", ["Action", "Adventure", "Thriller", "Science Fiction"]),
   ("Romantic", ["Romance", "Comedy"]),
   ("Thought-provoking", ["Drama", "Mystery", "Science Fiction"]),
   ("Funny", ["Comedy"]),
   ("Action-packed", ["Action", "Adventure", "Science Fiction"]),
   ("Suspenseful", ["Thriller", "Horror", "Mystery"])]

/-- `REVERSE_GENRES.get(name)`: the genre catalog is a dict `id → name`;
`REVERSE_GENRES = {name: id for id, name in GENRES.items()}`, so for a
duplicated name the last id wins — hence the lookup over the reversed list. -/
def reverseLookup (genres : List (Int × String)) (name : String) : Option Int :=
  (genres.reverse.find? (fun g => g.2 = name)).map Prod.fst

/-- `MOOD_TO_GENRE_IDS`: built only when `GENRES` is non-empty
(`if GENRES:` gate in `main.py`); each mood keeps the ids of its genre
names that resolve in `REVERSE_GENRES` (the comprehension plus the
`None`-pruning pass amount to a `filterMap`). -/
def MOOD_TO_GENRE_IDS (genres : List (Int × String)) : List (String × List Int) :=
  if genres.isEmpty then []
  else moodTable.map (fun m => (m.1, m.2.filterMap (reverseLookup genres)))

/-- The genre-id list of a mood in `MOOD_TO_GENRE_IDS` (empty when the
mood is not a key, matching `selected_mood in MOOD_TO_GENRE_IDS`). -/
def moodIds (genres : List (Int × String)) (mood : String) : List Int :=
  (((MOOD_TO_GENRE_IDS genres).find? (fun p => p.1 = mood)).map Prod.snd).getD []

/-- The `genre_ids_to_query` set of `_build_base_query_params`: guarded by
`if GENRES:`; individually selected genre names contribute only when the
"All" sentinel is absent; the mood ids are unioned in when the mood is a
key of `MOOD_TO_GENRE_IDS` other than "All". The Python value is a `set`
of ints; it is modelled as a deduplicated list. -/
def genreIdsToQuery (genres : List (Int × String)) (selectedGenreNames : List String)
    (selectedMood : String) : List Int :=
  if genres.isEmpty then []
  else
    let fromSelected :=
      if selectedGenreNames.contains "All" then []
      else (genres.filter (fun g => selectedGenreNames.contains g.2)).map Prod.fst
    let fromMood :=
      if selectedMood ≠ "All" ∧
          ((MOOD_TO_GENRE_IDS genres).find? (fun p => p.1 = selectedMood)).isSome then
        moodIds genres selectedMood
      else []
    (fromSelected ++ fromMood).dedup

/-- `_build_base_query_params` from `main.py`. `year_range` is a 2-tuple
from the slider, hence always truthy, so the release-date bounds are set
unconditionally. -/
def build_base_query_params (yearRange : Nat × Nat) (genres : List (Int × String))
    (selectedGenreNames : List String) (selectedMood : String)
    (minRating : ℚ) (selectedLanguageNames : List String) : Dict :=
  let q : Dict := []
  let q := q.setKey "primary_release_date.gte" (.str (toString yearRange.1 ++ "-01-01"))
  let q := q.setKey "primary_release_date.lte" (.str (toString yearRange.2 ++ "-12-31"))
  let ids := genreIdsToQuery genres selectedGenreNames selectedMood
  let q := if ids.isEmpty then q
    else q.setKey "with_genres" (.str (String.intercalate "," (ids.map toString)))
  let q := if 0 < minRating then q.setKey "vote_average.gte" (.rat minRating) else q
  let q :=
    if ¬selectedLanguageNames.isEmpty ∧ ¬selectedLanguageNames.contains "Any" then
      let codes := selectedLanguageNames.filterMap
        (fun n => (SUPPORTED_LANGUAGES.find? (fun p => p.1 = n)).map Prod.snd)
      if codes.isEmpty then q
      else q.setKey "with_original_language" (.str (String.intercalate "|" codes))
    else q
  q

/-! ## Person resolution (`_get_person_id` in `main.py`)

The per-role cache keys `{role}_id_result` / `searched_{role}_name` of the
session state (the function is identical for the "actor" and "director"
roles; the role only selects which pair of keys is used). The network
search is an oracle `String → Option Int` standing for `search_person`;
the third component of the result counts the network calls issued. -/

structure PersonCache where
  searchedName : Option String
  idResult : Option Int
deriving DecidableEq, Repr

/-- `_get_person_id` from `main.py`: an empty name clears the cache and
returns `None` without searching; a name equal to the cached searched
name is served from the cache (even a cached `None`); otherwise the name
is stored, `search_person` runs once, and its result is stored. -/
def get_person_id (personName : String) (c : PersonCache)
    (searchOracle : String → Option Int) : Option Int × PersonCache × Nat :=
  if personName = "" then (none, ⟨none, none⟩, 0)
  else if c.searchedName = some personName then (c.idResult, c, 0)
  else
    let found := searchOracle personName
    (found, ⟨some personName, found⟩, 1)

/-! ## Actor/director precedence (`main.py`, grid view)

Python truthiness on the resolved ids: `None` and `0` are both falsy, so
the source's `if actor_id and director_id: ... elif ... ` chain treats a
resolved id `0` exactly like an unresolved one. -/

/-- Truthiness of an optional person id (`if actor_id:` in Python). -/
def idTruthy : Option Int → Bool
  | none => false
  | some n => n != 0

/-- The person-filter block of `main()`: sets `with_crew` when only the
director id is truthy, then sets `with_people` and removes any
`with_crew` key when the actor id is truthy. -/
def applyPersonFilters (q : Dict) (actorId directorId : Option Int) : Dict :=
  let q1 :=
    if ¬idTruthy actorId ∧ idTruthy directorId then
      q.setKey "with_crew" (.str (toString (directorId.getD 0)))
    else q
  if idTruthy actorId then
    (q1.setKey "with_people" (.str (toString (actorId.getD 0)))).delKey "with_crew"
  else q1

/-! ## Surprise mode and pagination bookkeeping (`main.py`, `utils.py`) -/

def MAX_API_PAGES : Nat := 500

/-- `min(total_pages, MAX_API_PAGES) if total_pages else 1`, the
expression used both for `max_page` of surprise mode and for
`max_display_page` of the pagination controls. -/
def maxDisplayPage (totalPages : Nat) : Nat :=
  if totalPages ≠ 0 then min totalPages MAX_API_PAGES else 1

/-- The surprise-mode query dict of `main()`: the literal
`{sort_by, vote_average.gte, vote_count.gte}` plus the release-date
bounds from the (always truthy) year-range tuple. -/
def surpriseQuery (yearRange : Nat × Nat) : Dict :=
  Dict.setKey
    (Dict.setKey
      [("sort_by", QVal.str "popularity.desc"),
       ("vote_average.gte", QVal.rat 7),
       ("vote_count.gte", QVal.int 300)]
      "primary_release_date.gte" (.str (toString yearRange.1 ++ "-01-01")))
    "primary_release_date.lte" (.str (toString yearRange.2 ++ "-12-31"))

/-- `page_to_fetch = random.randint(1, max_page) if max_page > 1 else 1`;
the sample `r` of `random.randint(1, max_page)` is an oracle argument
(the caller constrains it to `1 ≤ r ≤ max_page`, the randint contract). -/
def surprisePage (totalPages : Nat) (r : Nat) : Nat :=
  if 1 < maxDisplayPage totalPages then r else 1

/-! ## Session state (`initialize_session_state`, callbacks, `utils.py`)

`surprise_just_shown` is deleted from the session dict by the callbacks;
every read uses `.get`, so deletion is observationally `false` and the
flag is modelled as a `Bool`. The extra field `lastTotalPages` is not a
session key: it models the render-local `total_pages` value returned by
the most recent discovery fetch, which is what the pagination controls
are computed from (needed to state the page-bound invariant). -/

structure SessionState where
  page : Nat
  selectedMovieId : Option Nat
  surpriseMode : Bool
  surpriseJustShown : Bool
  lastTotalPages : Option Nat
deriving DecidableEq, Repr

/-- The defaults of `initialize_session_state` (no fetch has happened). -/
def SessionState.init : SessionState :=
  { page := 1, selectedMovieId := none, surpriseMode := false,
    surpriseJustShown := false, lastTotalPages := none }

/-- `previous_page` from `utils.py`: decrements only when `page > 1`, and
only then deletes the `surprise_just_shown` key; at `page ≤ 1` nothing
at all happens. -/
def previous_page (s : SessionState) : SessionState :=
  if 1 < s.page then { s with page := s.page - 1, surpriseJustShown := false }
  else s

/-- `next_page` from `utils.py`: increments unconditionally and deletes
the `surprise_just_shown` key. -/
def next_page (s : SessionState) : SessionState :=
  { s with page := s.page + 1, surpriseJustShown := false }

/-- `set_selected_movie` callback from `main.py`. -/
def set_selected_movie (s : SessionState) (movieId : Nat) : SessionState :=
  { s with selectedMovieId := some movieId, surpriseJustShown := false }

/-- `clear_selected_movie` callback from `main.py`. -/
def clear_selected_movie (s : SessionState) : SessionState :=
  { s with selectedMovieId := none }

/-- `trigger_surprise_me` callback from `main.py`. -/
def trigger_surprise_me (s : SessionState) : SessionState :=
  { s with surpriseMode := true, page := 1, selectedMovieId := none,
           surpriseJustShown := false }

/-- The surprise-branch commit of `main()`: after the page-1 fetch
reported `totalPages`, the randomly chosen page is written into
`st.session_state['page']`, surprise mode ends and the just-shown flag
is set (then `st.rerun()`). -/
def surpriseCommit (s : SessionState) (totalPages r : Nat) : SessionState :=
  { s with page := surprisePage totalPages r, surpriseMode := false,
           surpriseJustShown := true, lastTotalPages := some totalPages }

/-- One user-or-render step of the session, with the guards the
Presentation Layer enforces: pagination buttons exist only in grid view
and are disabled outside their range (`disabled=(current_page <= 1)` and
`disabled=(current_page >= max_display_page)` in `main()`); a grid
render fetches and thereby reports a fresh `total_pages` value `t`
chosen by the remote API (`report`); the surprise branch runs when
`surprise_mode` is set, with the randint sample `r` constrained to
`1 ≤ r ≤ max_page`. -/
inductive Step : SessionState → SessionState → Prop
  | report {s : SessionState} (t : Nat) :
      s.selectedMovieId = none → s.surpriseMode = false →
      Step s { s with lastTotalPages := some t }
  | next {s : SessionState} (t : Nat) :
      s.selectedMovieId = none → s.surpriseMode = false →
      s.lastTotalPages = some t → s.page < maxDisplayPage t →
      Step s (next_page s)
  | prev {s : SessionState} (t : Nat) :
      s.selectedMovieId = none → s.surpriseMode = false →
      s.lastTotalPages = some t → 1 < s.page →
      Step s (previous_page s)
  | select {s : SessionState} (movieId : Nat) :
      s.selectedMovieId = none →
      Step s (set_selected_movie s movieId)
  | back {s : SessionState} :
      Step s (clear_selected_movie s)
  | triggerSurprise {s : SessionState} :
      Step s (trigger_surprise_me s)
  | commitSurprise {s : SessionState} (t r : Nat) :
      s.surpriseMode = true → s.selectedMovieId = none →
      1 ≤ r → r ≤ maxDisplayPage t →
      Step s (surpriseCommit s t r)

/-- States reachable from the initial session state. -/
inductive Reachable : SessionState → Prop
  | init : Reachable SessionState.init
  | step {s s2 : SessionState} : Reachable s → Step s s2 → Reachable s2

/-! ## `fetch_movies` parameter construction (`api_utils.py`)

`fetch_movies` copies the caller's dict (`params = query_params.copy()`)
and mutates only the copy. To make that frame property meaningful, the
construction is embedded against an explicit heap of dicts: references
are indices, the copy allocates a fresh reference, and every write goes
through the heap. -/

abbrev Heap := List Dict

def Heap.get (h : Heap) (r : Nat) : Dict := h.getD r []

def Heap.set (h : Heap) (r : Nat) (d : Dict) : Heap := List.set h r d

/-- The pure content of the params dict `fetch_movies` builds: `page`,
`include_adult`, `language` forced onto the copy, then the default sort
key when the caller supplied none. -/
def buildFetchParams (queryParams : Dict) (page : Int) : Dict :=
  let p := ((queryParams.setKey "page" (.int page)).setKey
    "include_adult" (.str "false")).setKey "language" (.str "en-US")
  if p.hasKey "sort_by" then p else p.setKey "sort_by" (.str "popularity.desc")

/-- The statements of `fetch_movies` up to the request, on the heap:
reads the caller's dict at `pRef`, allocates the copy, mutates the copy;
returns the heap and the reference of the dict handed to the request. -/
def fetch_movies_heap (h : Heap) (pRef : Nat) (page : Int) : Heap × Nat :=
  let copied := h.get pRef
  let h2 := h ++ [copied]
  let paramsRef := h.length
  let h3 := h2.set paramsRef (buildFetchParams (h2.get paramsRef) page)
  (h3, paramsRef)

/-! ## API Client (`api_utils.py`)

A decoded JSON document (JSON numbers restricted to integers; the only
numeric fields the client inspects are ids and `total_pages`). The
result of `_make_api_request` is an `Option Json`: `none` models every
outcome the helper swallows — network failure, HTTP status ≥ 400
(`raise_for_status`), and malformed JSON — as well as a missing
configuration. The operations then run Python dict/list primitives on
the document; the primitives return `Except PyErr` so that a Python
exception escaping to the caller is an observable `.error`. -/

inductive Json where
  | null
  | bool (b : Bool)
  | num (n : Int)
  | str (s : String)
  | arr (xs : List Json)
  | obj (fs : List (String × Json))
deriving Repr

/-- Python runtime errors that the client code can raise. -/
inductive PyErr where
  | keyError (k : String)
  | typeError
  | indexError
  | attributeError
deriving DecidableEq, Repr

/-- Python truthiness of a decoded JSON value. -/
def Json.truthy : Json → Bool
  | .null => false
  | .bool b => b
  | .num n => n != 0
  | .str s => s ≠ ""
  | .arr xs => ¬xs.isEmpty
  | .obj fs => ¬fs.isEmpty

/-- Whether a JSON value equals a given Python string (used by `in` on
lists: a string compares unequal, not erroneous, to non-strings). -/
def Json.eqStr (j : Json) (s : String) : Bool :=
  match j with
  | .str t => t = s
  | _ => false

/-- Substring test `needle in hay` on Python strings. -/
def pyInStr (needle hay : String) : Bool :=
  needle = "" || (hay.splitOn needle).length ≥ 2

/-- Python `k in data` for a string `k`: key membership on dicts, element
equality on lists, substring on strings, `TypeError` on non-iterables. -/
def Json.pyContains (j : Json) (k : String) : Except PyErr Bool :=
  match j with
  | .obj fs => .ok (fs.any (fun f => f.1 = k))
  | .arr xs => .ok (xs.any (fun x => x.eqStr k))
  | .str s => .ok (pyInStr k s)
  | _ => .error .typeError

/-- Python `data[k]` for a string key: dict lookup (`KeyError` when
absent), `TypeError` on lists (indices must be integers), strings and
other non-subscriptables. -/
def Json.pySubscr (j : Json) (k : String) : Except PyErr Json :=
  match j with
  | .obj fs =>
    match fs.find? (fun f => f.1 = k) with
    | some f => .ok f.2
    | none => .error (.keyError k)
  | _ => .error .typeError

/-- Python `data[i]` for an integer index: list/string indexing with
negative-index wraparound and `IndexError` out of range; `KeyError` on a
string-keyed dict; `TypeError` otherwise. -/
def Json.pyIndex (j : Json) (i : Int) : Except PyErr Json :=
  match j with
  | .arr xs =>
    let n : Int := xs.length
    if 0 ≤ i ∧ i < n then .ok (xs.getD i.toNat .null)
    else if -n ≤ i ∧ i < 0 then .ok (xs.getD (n + i).toNat .null)
    else .error .indexError
  | .str s =>
    let n : Int := s.length
    if 0 ≤ i ∧ i < n then .ok (.str (String.mk [s.toList.getD i.toNat ' ']))
    else if -n ≤ i ∧ i < 0 then .ok (.str (String.mk [s.toList.getD (n + i).toNat ' ']))
    else .error .indexError
  | .obj _ => .error (.keyError (toString i))
  | _ => .error .typeError

/-- Python `data.get(k, default)`: only dicts have `.get`; anything else
raises `AttributeError`. -/
def Json.pyGet (j : Json) (k : String) (default : Json) : Except PyErr Json :=
  match j with
  | .obj fs =>
    match fs.find? (fun f => f.1 = k) with
    | some f => .ok f.2
    | none => .ok default
  | _ => .error .attributeError

/-- Python iteration `for x in data`: list elements, dict keys, string
characters; `TypeError` otherwise. -/
def Json.pyIter (j : Json) : Except PyErr (List Json) :=
  match j with
  | .arr xs => .ok xs
  | .obj fs => .ok (fs.map (fun f => Json.str f.1))
  | .str s => .ok (s.toList.map (fun c => Json.str (String.mk [c])))
  | _ => .error .typeError

/-- Whether a JSON value is a hashable Python value (usable as dict key). -/
def Json.hashable : Json → Bool
  | .arr _ => false
  | .obj _ => false
  | _ => true

/-- Equality of hashable dict keys. (Python additionally identifies
`True` with `1`; the payloads at issue never use booleans as ids, so the
flat structural comparison is used.) -/
def Json.keyEq : Json → Json → Bool
  | .null, .null => true
  | .bool a, .bool b => a == b
  | .num a, .num b => a == b
  | .str a, .str b => a == b
  | _, _ => false

/-- A Python dict with arbitrary (hashable) keys, insertion ordered. -/
abbrev JDict := List (Json × Json)

/-- Python dict assignment on a `JDict`. -/
def JDict.setKey : JDict → Json → Json → JDict
  | [], k, v => [(k, v)]
  | p :: rest, k, v =>
    if Json.keyEq p.1 k then (k, v) :: rest else p :: JDict.setKey rest k v

/-- One insertion of the dict comprehension, raising `TypeError` for an
unhashable key. -/
def insertPair (d : JDict) (k v : Json) : Except PyErr JDict :=
  if k.hashable then .ok (JDict.setKey d k v) else .error .typeError

/-- The comprehension `{genre['id']: genre['name'] for genre in ...}`:
for each element, evaluate the key then the value, then insert. -/
def buildGenrePairs : JDict → List Json → Except PyErr JDict
  | d, [] => .ok d
  | d, g :: rest => do
    let i ← g.pySubscr "id"
    let n ← g.pySubscr "name"
    let d2 ← insertPair d i n
    buildGenrePairs d2 rest

/-- `load_genres` from `api_utils.py` (the `@st.cache_data` memoization
does not change the value). `outcome` is the `_make_api_request` result. -/
def load_genres (outcome : Option Json) : Except PyErr JDict :=
  match outcome with
  | none => .ok []
  | some data =>
    if data.truthy then do
      let hasG ← data.pyContains "genres"
      if hasG then do
        let gs ← data.pySubscr "genres"
        let items ← gs.pyIter
        buildGenrePairs [] items
      else .ok []
    else .ok []

/-- `search_person` from `api_utils.py`: empty name (or the guard on
`BASE_URL`) short-circuits to `None`; a truthy response with a truthy
`results` entry yields `data['results'][0]['id']`. -/
def search_person (name : String) (outcome : Option Json) : Except PyErr (Option Json) :=
  if name = "" then .ok none
  else
    match outcome with
    | none => .ok none
    | some data =>
      if data.truthy then do
        let rs ← data.pyGet "results" .null
        if rs.truthy then do
          let rs2 ← data.pySubscr "results"
          let first ← rs2.pyIndex 0
          let i ← first.pySubscr "id"
          .ok (some i)
        else .ok none
      else .ok none

/-- The result handling of `fetch_movies` from `api_utils.py`: the
request is issued with `buildFetchParams queryParams page`; a falsy or
failed response degrades to `([], 0)`, a truthy one is read with
`.get` defaults. -/
def fetch_movies (queryParams : Dict) (page : Int) (outcome : Option Json) :
    Except PyErr (Json × Json) :=
  let _params := buildFetchParams queryParams page
  match outcome with
  | none => .ok (.arr [], .num 0)
  | some data =>
    if data.truthy then do
      let rs ← data.pyGet "results" (.arr [])
      let tp ← data.pyGet "total_pages" (.num 0)
      .ok (rs, tp)
    else .ok (.arr [], .num 0)

/-- `fetch_movie_details` from `api_utils.py`: falsy movie id
short-circuits to `None`; otherwise the decoded response (or `None` on
failure) is returned as is — this operation can never raise. -/
def fetch_movie_details (movieId : Int) (outcome : Option Json) :
    Except PyErr (Option Json) :=
  if movieId = 0 then .ok none
  else
    match outcome with
    | none => .ok none
    | some data => .ok (some data)

/-! ## Claims -/

/-- C8: for every year range `(a, b)` with `a ≤ b` (and any other filter
selection), the built query contains the release-date lower bound
`{a}-01-01` and upper bound `{b}-12-31`. -/
theorem c8_year_bounds (yearRange : Nat × Nat) (genres : List (Int × String))
    (names : List String) (mood : String) (minRating : ℚ) (langs : List String)
    (hab : yearRange.1 ≤ yearRange.2) :
    (build_base_query_params yearRange genres names mood minRating langs).lookup
        "primary_release_date.gte" = some (.str (toString yearRange.1 ++ "-01-01"))
  ∧ (build_base_query_params yearRange genres names mood minRating langs).lookup
        "primary_release_date.lte" = some (.str (toString yearRange.2 ++ "-12-31")) := by
  constructor <;>
    simp [build_base_query_params, Dict.lookup_ite, Dict.lookup_setKey, Dict.lookup]

/-- Witness for C8 at the year range (2010, 2020). -/
theorem c8_year_bounds_witness :
    (build_base_query_params (2010, 2020) [(35, "Comedy"), (28, "Action")] ["All"]
        "Funny" (15/2) ["Any"]).lookup "primary_release_date.gte"
      = some (.str "2010-01-01")
  ∧ (build_base_query_params (2010, 2020) [(35, "Comedy"), (28, "Action")] ["All"]
        "Funny" (15/2) ["Any"]).lookup "primary_release_date.lte"
      = some (.str "2020-12-31") :=
  c8_year_bounds (2010, 2020) [(35, "Comedy"), (28, "Action")] ["All"]
    "Funny" (15/2) ["Any"] (by decide)

/-- C9: for any cached state and any search oracle (and either role — the
function is role-generic), an empty name returns `None`, nulls out both
the cached searched-name and the cached id, and issues no network call. -/
theorem c9_empty_name_clears (c : PersonCache) (oracle : String → Option Int) :
    get_person_id "" c oracle = (none, ⟨none, none⟩, 0) := by
  simp [get_person_id]

/-- C3: `next_page` increments by exactly 1 with no upper bound and
clears the just-shown flag, leaving the other components alone;
`previous_page` decrements by 1 and clears the flag only when
`page > 1`, and at `page = 1` is a complete no-op. -/
theorem c3_page_transitions (s : SessionState) :
    (next_page s).page = s.page + 1
  ∧ (next_page s).surpriseJustShown = false
  ∧ (next_page s).selectedMovieId = s.selectedMovieId
  ∧ (next_page s).surpriseMode = s.surpriseMode
  ∧ (1 < s.page →
      (previous_page s).page = s.page - 1
      ∧ (previous_page s).surpriseJustShown = false
      ∧ (previous_page s).selectedMovieId = s.selectedMovieId
      ∧ (previous_page s).surpriseMode = s.surpriseMode)
  ∧ (s.page = 1 → previous_page s = s) := by
  refine ⟨rfl, rfl, rfl, rfl, fun h => ?_, fun h => ?_⟩ <;>
    simp [previous_page, next_page, h]

/-- Witness for C3 at pages 2 and 1. -/
theorem c3_page_transitions_witness :
    (next_page ⟨2, none, false, true, some 4⟩).page = 3
  ∧ previous_page ⟨1, none, false, true, none⟩ = ⟨1, none, false, true, none⟩
  ∧ (previous_page ⟨2, none, false, true, some 4⟩).page = 1 :=
  ⟨(c3_page_transitions _).1,
   (c3_page_transitions _).2.2.2.2.2 rfl,
   ((c3_page_transitions _).2.2.2.2.1 (by decide)).1⟩

/-- C6: for a non-empty name, calling `_get_person_id` twice in a row
with the same name issues at most one network call in total: the second
call makes no call, returns the cached id (possibly a cached `None`),
and leaves the cache state unchanged. -/
theorem c6_resolve_person_memoized (name : String) (c : PersonCache)
    (oracle : String → Option Int) (h : name ≠ "") :
    (get_person_id name (get_person_id name c oracle).2.1 oracle).2.2 = 0
  ∧ (get_person_id name (get_person_id name c oracle).2.1 oracle).2.1
      = (get_person_id name c oracle).2.1
  ∧ (get_person_id name (get_person_id name c oracle).2.1 oracle).1
      = ((get_person_id name c oracle).2.1).idResult
  ∧ (get_person_id name (get_person_id name c oracle).2.1 oracle).1
      = (get_person_id name c oracle).1
  ∧ (get_person_id name c oracle).2.2
      + (get_person_id name (get_person_id name c oracle).2.1 oracle).2.2 ≤ 1 := by
  by_cases hc : c.searchedName = some name <;>
    simp [get_person_id, h, hc]

/-- Witness for C6: a fresh cache, the name "Tom", an oracle answering 31. -/
theorem c6_resolve_person_memoized_witness :
    (get_person_id "Tom" (get_person_id "Tom" ⟨none, none⟩ (fun _ => some 31)).2.1
        (fun _ => some 31)).2.2 = 0
  ∧ (get_person_id "Tom" ⟨none, none⟩ (fun _ => some 31)).2.2
      + (get_person_id "Tom" (get_person_id "Tom" ⟨none, none⟩ (fun _ => some 31)).2.1
          (fun _ => some 31)).2.2 ≤ 1 :=
  ⟨(c6_resolve_person_memoized "Tom" ⟨none, none⟩ (fun _ => some 31) (by decide)).1,
   (c6_resolve_person_memoized "Tom" ⟨none, none⟩ (fun _ => some 31) (by decide)).2.2.2.2⟩

/-- C7: when the "All" sentinel is among the selected genre names, the
queried genre-id set is exactly the selected mood's id set (so no
individually selected genre id enters it, and it is empty when the mood
is "All" or resolves to nothing); the `with_genres` key is present
exactly when that set is non-empty, holding the comma-joined ids. -/
theorem c7_all_sentinel_mood_only (genres : List (Int × String)) (names : List String)
    (mood : String) (yearRange : Nat × Nat) (minRating : ℚ) (langs : List String)
    (hAll : names.contains "All" = true) :
    (∀ gid : Int, gid ∈ genreIdsToQuery genres names mood ↔
        (mood ≠ "All" ∧ gid ∈ moodIds genres mood))
  ∧ (build_base_query_params yearRange genres names mood minRating langs).lookup
        "with_genres"
      = if (genreIdsToQuery genres names mood).isEmpty then none
        else some (.str (String.intercalate ","
            ((genreIdsToQuery genres names mood).map toString))) := by
  have hmem : "All" ∈ names := by simpa using hAll
  constructor
  · intro gid
    by_cases hE : genres.isEmpty
    · simp [genreIdsToQuery, moodIds, MOOD_TO_GENRE_IDS, hE]
    · by_cases hM : mood = "All"
      · simp [genreIdsToQuery, hE, hM, hAll, hmem]
      · by_cases hS : ((MOOD_TO_GENRE_IDS genres).find? (fun p => p.1 = mood)).isSome
        · simp [genreIdsToQuery, hE, hM, hS, hAll, hmem, List.mem_dedup]
        · rw [Option.not_isSome_iff_eq_none] at hS
          simp [genreIdsToQuery, moodIds, hE, hM, hS, hAll, hmem]
  · by_cases hI : (genreIdsToQuery genres names mood).isEmpty <;>
      simp [build_base_query_params, Dict.lookup_ite, Dict.lookup_setKey, Dict.lookup,
        hI, List.isEmpty_iff]

/-- Witness for C7 with the catalog {28 Action, 35 Comedy}, genre
selection ["All"] and mood "Funny". -/
theorem c7_all_sentinel_mood_only_witness :
    ((35 : Int) ∈ genreIdsToQuery [(35, "Comedy"), (28, "Action")] ["All"] "Funny" ↔
      ("Funny" ≠ "All" ∧ (35 : Int) ∈ moodIds [(35, "Comedy"), (28, "Action")] "Funny"))
  ∧ (build_base_query_params (2010, 2020) [(35, "Comedy"), (28, "Action")] ["All"]
        "Funny" (15/2) ["Any"]).lookup "with_genres"
      = if (genreIdsToQuery [(35, "Comedy"), (28, "Action")] ["All"] "Funny").isEmpty
        then none
        else some (.str (String.intercalate ","
            ((genreIdsToQuery [(35, "Comedy"), (28, "Action")] ["All"] "Funny").map
              toString))) :=
  ⟨(c7_all_sentinel_mood_only [(35, "Comedy"), (28, "Action")] ["All"] "Funny"
      (2010, 2020) (15/2) ["Any"] (by decide)).1 35,
   (c7_all_sentinel_mood_only [(35, "Comedy"), (28, "Action")] ["All"] "Funny"
      (2010, 2020) (15/2) ["Any"] (by decide)).2⟩

/-- C10: `fetch_movies` never mutates the caller's parameter dict: the
heap cell of the caller's dict is unchanged by the call, while the dict
actually handed to the request is the copy extended with the forced
`page`, `include_adult`, `language` keys and the default sort key. -/
theorem c10_fetch_movies_frame (h : Heap) (pRef : Nat) (page : Int)
    (hr : pRef < h.length) :
    (fetch_movies_heap h pRef page).1.get pRef = h.get pRef
  ∧ (fetch_movies_heap h pRef page).1.get (fetch_movies_heap h pRef page).2
      = buildFetchParams (h.get pRef) page := by
  have hcopy : Heap.get (h ++ [h.get pRef]) h.length = h.get pRef := by
    rw [Heap.get, List.getD_eq_getElem?_getD, List.getElem?_append_right (le_refl _)]
    simp [Heap.get]
  constructor
  · show Heap.get (Heap.set (h ++ [h.get pRef]) h.length _) pRef = h.get pRef
    rw [Heap.get, Heap.set, List.getD_eq_getElem?_getD,
      List.getElem?_set_ne (by omega), List.getElem?_append_left hr,
      Heap.get, List.getD_eq_getElem?_getD]
  · show Heap.get (Heap.set (h ++ [h.get pRef]) h.length _) h.length
      = buildFetchParams (h.get pRef) page
    have hlen : h.length < (h ++ [h.get pRef]).length := by simp
    rw [Heap.get, Heap.set, List.getD_eq_getElem?_getD,
      List.getElem?_set_self hlen, hcopy]
    rfl

/-- Witness for C10 at a one-dict heap. -/
theorem c10_fetch_movies_frame_witness :
    (fetch_movies_heap [[("a", QVal.str "b")]] 0 2).1.get 0 = [("a", QVal.str "b")]
  ∧ (fetch_movies_heap [[("a", QVal.str "b")]] 0 2).1.get
        (fetch_movies_heap [[("a", QVal.str "b")]] 0 2).2
      = buildFetchParams [("a", QVal.str "b")] 2 :=
  ⟨(c10_fetch_movies_frame [[("a", QVal.str "b")]] 0 2 (by decide)).1,
   (c10_fetch_movies_frame [[("a", QVal.str "b")]] 0 2 (by decide)).2⟩

/-- C1, counterexample to the claim as stated: with an actor id that is
non-null but `0` and a director id `5` — both "resolved to non-null
person ids" — the Python truthiness test skips the actor branch, so the
final query carries no `with_people` key and maps `with_crew` to the
director id, contradicting the claimed cast-filter precedence. -/
theorem c1_counterexample :
    (applyPersonFilters [] (some 0) (some 5)).lookup "with_people" = none
  ∧ (applyPersonFilters [] (some 0) (some 5)).lookup "with_crew"
      = some (.str (toString (5 : Int)))
  ∧ ¬((applyPersonFilters [] (some 0) (some 5)).lookup "with_people"
          = some (.str (toString (0 : Int)))
      ∧ (applyPersonFilters [] (some 0) (some 5)).lookup "with_crew" = none) := by
  refine ⟨by decide, by decide, by decide⟩

/-- C1 (amended): whenever both resolved ids are truthy (non-null and
non-zero), the final query maps `with_people` to the actor id and holds
no `with_crew` key; when the actor is unresolved (null) and the director
id is truthy, `with_crew` is set to the director id instead. -/
theorem c1_actor_precedence (q : Dict) (a d : Int) (ha : a ≠ 0) (hd : d ≠ 0) :
    ((applyPersonFilters q (some a) (some d)).lookup "with_people"
        = some (.str (toString a))
      ∧ (applyPersonFilters q (some a) (some d)).lookup "with_crew" = none)
  ∧ (applyPersonFilters q none (some d)).lookup "with_crew"
      = some (.str (toString d)) := by
  refine ⟨⟨?_, ?_⟩, ?_⟩ <;>
    simp [applyPersonFilters, idTruthy, ha, hd,
      Dict.lookup_setKey, Dict.lookup_delKey]

/-- Witness for C1 (amended) with actor id 7 and director id 9. -/
theorem c1_actor_precedence_witness :
    ((applyPersonFilters [] (some 7) (some 9)).lookup "with_people"
        = some (.str (toString (7 : Int)))
      ∧ (applyPersonFilters [] (some 7) (some 9)).lookup "with_crew" = none)
  ∧ (applyPersonFilters [] none (some 9)).lookup "with_crew"
      = some (.str (toString (9 : Int))) :=
  c1_actor_precedence [] 7 9 (by decide) (by decide)

/-- C5, counterexample to the claim as stated: when the page-1 fetch
reports `total_pages = 0` (an empty or failed discovery), the displayed
page is 1, which does not lie in the claimed interval
`[1, min(total_pages, 500)] = [1, 0]`. -/
theorem c5_counterexample :
    surprisePage 0 5 = 1 ∧ ¬(surprisePage 0 5 ≤ min 0 MAX_API_PAGES) := by
  decide

/-- C5 (amended): the surprise query consists of exactly the fixed sort
(popularity-descending), minimum vote average 7.0, minimum vote count
300, and the two year-range date bounds — no other filter; and whenever
the page-1 fetch reports `total_pages ≥ 1`, the displayed page (the
randint sample, constrained to its contract) lies in
`[1, min(total_pages, 500)]` and is committed into the session page. -/
theorem c5_surprise_query_and_page (yearRange : Nat × Nat) (s : SessionState)
    (total r : Nat) (ht : 1 ≤ total) (hr1 : 1 ≤ r) (hr2 : r ≤ maxDisplayPage total) :
    (surpriseQuery yearRange).lookup "sort_by" = some (.str "popularity.desc")
  ∧ (surpriseQuery yearRange).lookup "vote_average.gte" = some (.rat 7)
  ∧ (surpriseQuery yearRange).lookup "vote_count.gte" = some (.int 300)
  ∧ (surpriseQuery yearRange).lookup "primary_release_date.gte"
      = some (.str (toString yearRange.1 ++ "-01-01"))
  ∧ (surpriseQuery yearRange).lookup "primary_release_date.lte"
      = some (.str (toString yearRange.2 ++ "-12-31"))
  ∧ (surpriseQuery yearRange).map Prod.fst
      = ["sort_by", "vote_average.gte", "vote_count.gte",
         "primary_release_date.gte", "primary_release_date.lte"]
  ∧ 1 ≤ surprisePage total r
  ∧ surprisePage total r ≤ min total MAX_API_PAGES
  ∧ (surpriseCommit s total r).page = surprisePage total r := by
  have hm : maxDisplayPage total = min total MAX_API_PAGES := by
    simp [maxDisplayPage]
    omega
  refine ⟨?_, ?_, ?_, ?_, ?_, ?_, ?_, ?_, rfl⟩
  · simp [surpriseQuery, Dict.lookup_setKey, Dict.lookup]
  · simp [surpriseQuery, Dict.lookup_setKey, Dict.lookup]
  · simp [surpriseQuery, Dict.lookup_setKey, Dict.lookup]
  · simp [surpriseQuery, Dict.lookup_setKey, Dict.lookup]
  · simp [surpriseQuery, Dict.lookup_setKey, Dict.lookup]
  · simp [surpriseQuery, Dict.setKey]
  · unfold surprisePage
    split <;> omega
  · unfold surprisePage
    rw [← hm]
    have h1 : 1 ≤ maxDisplayPage total := by
      rw [hm]
      exact Nat.le_min.mpr ⟨ht, by norm_num [MAX_API_PAGES]⟩
    split <;> omega

/-- Witness for C5 (amended) at year range (2000, 2025), a total of 37
pages and the sample 12. -/
theorem c5_surprise_query_and_page_witness :
    (surpriseQuery (2000, 2025)).lookup "sort_by" = some (.str "popularity.desc")
  ∧ 1 ≤ surprisePage 37 12
  ∧ surprisePage 37 12 ≤ min 37 MAX_API_PAGES
  ∧ (surpriseCommit SessionState.init 37 12).page = surprisePage 37 12 :=
  ⟨(c5_surprise_query_and_page (2000, 2025) SessionState.init 37 12
      (by decide) (by decide) (by decide)).1,
   (c5_surprise_query_and_page (2000, 2025) SessionState.init 37 12
      (by decide) (by decide) (by decide)).2.2.2.2.2.2.1,
   (c5_surprise_query_and_page (2000, 2025) SessionState.init 37 12
      (by decide) (by decide) (by decide)).2.2.2.2.2.2.2.1,
   (c5_surprise_query_and_page (2000, 2025) SessionState.init 37 12
      (by decide) (by decide) (by decide)).2.2.2.2.2.2.2.2⟩

/-- A session state reached by: initial state, a grid fetch reporting 10
total pages, one (enabled) next-page click, then a fetch after a filter
change reporting only 1 total page. -/
def overshotState : SessionState :=
  { page := 2, selectedMovieId := none, surpriseMode := false,
    surpriseJustShown := false, lastTotalPages := some 1 }

/-- C2, counterexample to the claim as stated: `overshotState` is
reachable through the defined transitions (with every Presentation-Layer
guard respected), yet its page number 2 exceeds the last known
total-pages value 1 — nothing in the code clamps the page downward when
the discovery endpoint reports a smaller total than before. -/
theorem c2_counterexample :
    Reachable overshotState
  ∧ overshotState.lastTotalPages = some 1
  ∧ ¬(overshotState.page ≤ 1) := by
  refine ⟨?_, rfl, by decide⟩
  have h0 : Reachable SessionState.init := Reachable.init
  have h1 : Reachable ⟨1, none, false, false, some 10⟩ :=
    h0.step (Step.report 10 rfl rfl)
  have h2 : Reachable ⟨2, none, false, false, some 10⟩ :=
    h1.step (Step.next 10 rfl rfl rfl (by decide))
  exact h2.step (Step.report 1 rfl rfl)

/-- C2 (amended): in every reachable session state the page number is
≥ 1 (the upper bound against the last reported total-pages value does
not hold in general, as `overshotState` shows). -/
theorem c2_page_lower_bound (s : SessionState) (h : Reachable s) : 1 ≤ s.page := by
  induction h with
  | init => decide
  | step hr hs ih =>
    cases hs with
    | report t h1 h2 => simpa using ih
    | next t h1 h2 h3 h4 => simp [next_page]
    | prev t h1 h2 h3 h4 =>
      simp only [previous_page]
      split <;> simp_all <;> omega
    | select movieId h1 => simpa [set_selected_movie] using ih
    | back => simpa [clear_selected_movie] using ih
    | triggerSurprise => simp [trigger_surprise_me]
    | commitSurprise t r h1 h2 h3 h4 =>
      simp [surpriseCommit, surprisePage]
      split <;> omega

/-- Witness for C2 (amended) at the initial state. -/
theorem c2_page_lower_bound_witness :
    Reachable SessionState.init ∧ 1 ≤ SessionState.init.page :=
  ⟨Reachable.init, c2_page_lower_bound SessionState.init Reachable.init⟩

theorem except_ok_bind {ε α β : Type} (a : α) (f : α → Except ε β) :
    (Except.ok a >>= f) = f a := rfl

theorem pyGet_obj_ok (fs : List (String × Json)) (k : String) (dflt : Json) :
    ∃ v, Json.pyGet (.obj fs) k dflt = .ok v := by
  rcases h : fs.find? (fun f => f.1 = k) with _ | f
  · exact ⟨dflt, by simp [Json.pyGet, h]⟩
  · exact ⟨f.2, by simp [Json.pyGet, h]⟩

/-- A well-formed genre entry `{"id": i, "name": n}` of the genre-list
payload. -/
def encGenre (g : Int × String) : Json :=
  .obj [("id", .num g.1), ("name", .str g.2)]

/-- The dict entry the genre comprehension produces for such an entry. -/
def encPair (g : Int × String) : Json × Json :=
  (.num g.1, .str g.2)

theorem JDict.setKey_fresh (d : JDict) (k v : Json)
    (h : ∀ p ∈ d, Json.keyEq p.1 k = false) :
    JDict.setKey d k v = d ++ [(k, v)] := by
  induction d with
  | nil => rfl
  | cons p rest ih =>
    have hp := h p (by simp)
    simp only [JDict.setKey, hp, Bool.false_eq_true, if_false, List.cons_append,
      List.cons.injEq, true_and]
    exact ih (fun q hq => h q (by simp [hq]))

theorem buildGenrePairs_enc (l : List (Int × String)) (d : JDict) :
    buildGenrePairs d (l.map encGenre)
      = .ok (l.foldl (fun d2 g => JDict.setKey d2 (.num g.1) (.str g.2)) d) := by
  induction l generalizing d with
  | nil => rfl
  | cons g rest ih => exact ih (JDict.setKey d (.num g.1) (.str g.2))

theorem foldl_setKey_fresh (l : List (Int × String)) (d : JDict)
    (hd : ∀ g ∈ l, ∀ p ∈ d, Json.keyEq p.1 (.num g.1) = false)
    (hnd : (l.map Prod.fst).Nodup) :
    l.foldl (fun d2 g => JDict.setKey d2 (.num g.1) (.str g.2)) d
      = d ++ l.map encPair := by
  induction l generalizing d with
  | nil => simp
  | cons g rest ih =>
    have h1 : JDict.setKey d (.num g.1) (.str g.2) = d ++ [(.num g.1, .str g.2)] :=
      JDict.setKey_fresh d _ _ (fun p hp => hd g (by simp) p hp)
    have hnd3 : (g.1 :: rest.map Prod.fst).Nodup := by simpa using hnd
    have hfst : g.1 ∉ rest.map Prod.fst := (List.nodup_cons.mp hnd3).1
    have hnd2 : (rest.map Prod.fst).Nodup := (List.nodup_cons.mp hnd3).2
    have hfresh : ∀ g2 ∈ rest, ∀ p ∈ d ++ [(Json.num g.1, Json.str g.2)],
        Json.keyEq p.1 (.num g2.1) = false := by
      intro g2 hg2 p hp
      rcases List.mem_append.mp hp with hmem | hmem
      · exact hd g2 (List.mem_cons_of_mem _ hg2) p hmem
      · have hp2 : p = (Json.num g.1, Json.str g.2) := by simpa using hmem
        have hne : g.1 ≠ g2.1 := by
          intro e
          exact hfst (by rw [e]; exact List.mem_map_of_mem Prod.fst hg2)
        subst hp2
        simp [Json.keyEq, hne]
    simp only [List.foldl_cons, h1]
    have hrec := ih (d ++ [(Json.num g.1, Json.str g.2)]) hfresh hnd2
    rw [hrec]
    simp [encPair]

/-- C4, counterexample to the claim as stated: a successful request
returning the well-formed JSON payload `{"genres": [{"id": 1}]}` — an
entry missing its `name` field — makes `load_genres` raise a `KeyError`
to its caller instead of returning the empty-mapping sentinel. -/
theorem c4_counterexample :
    load_genres (some (.obj [("genres", .arr [.obj [("id", .num 1)]])]))
      = .error (.keyError "name") := rfl

/-- C4 (amended): the API Client never raises for transport-level
failures (network error, HTTP status ≥ 400, malformed JSON — all
swallowed by `_make_api_request` into `none`), returning the sentinels
`{}`, `None`, `([], 0)`, `None`; `fetch_movie_details` never raises for
any payload, `fetch_movies` never raises for any JSON-object payload,
and `load_genres` maps a well-formed genre payload to the id→name
mapping — but a payload with missing fields inside a genre entry makes
`load_genres` raise (see the counterexample), so the "never raises for
well-formed JSON with missing fields" part of the claim is false. -/
theorem c4_api_error_sentinels :
    load_genres none = .ok []
  ∧ (∀ name : String, search_person name none = .ok none)
  ∧ (∀ (q : Dict) (pg : Int), fetch_movies q pg none = .ok (.arr [], .num 0))
  ∧ (∀ (mid : Int) (o : Option Json), (fetch_movie_details mid o).isOk = true)
  ∧ (∀ (q : Dict) (pg : Int) (fs : List (String × Json)),
      (fetch_movies q pg (some (.obj fs))).isOk = true)
  ∧ (∀ l : List (Int × String), (l.map Prod.fst).Nodup →
      load_genres (some (.obj [("genres", .arr (l.map encGenre))]))
        = .ok (l.map encPair)) := by
  refine ⟨rfl, ?_, ?_, ?_, ?_, ?_⟩
  · intro name
    by_cases h : name = "" <;> simp [search_person, h]
  · intro q pg
    rfl
  · intro mid o
    by_cases h : mid = 0 <;> cases o <;>
      simp [fetch_movie_details, h, Except.isOk, Except.toBool]
  · intro q pg fs
    obtain ⟨v1, hv1⟩ := pyGet_obj_ok fs "results" (.arr [])
    obtain ⟨v2, hv2⟩ := pyGet_obj_ok fs "total_pages" (.num 0)
    by_cases hE : fs.isEmpty <;>
      simp [fetch_movies, Json.truthy, hE, hv1, hv2, except_ok_bind,
        Except.isOk, Except.toBool]
  · intro l hnd
    have h1 : load_genres (some (.obj [("genres", .arr (l.map encGenre))]))
        = buildGenrePairs [] (l.map encGenre) := rfl
    rw [h1, buildGenrePairs_enc, foldl_setKey_fresh l [] (by simp) hnd]
    simp

/-- Witness for C4 (amended): the transport-failure sentinel and a
concrete two-genre payload. -/
theorem c4_api_error_sentinels_witness :
    load_genres none = .ok []
  ∧ load_genres (some (.obj [("genres",
        .arr ([((1 : Int), "Action"), (2, "Comedy")].map encGenre))]))
      = .ok ([((1 : Int), "Action"), (2, "Comedy")].map encPair) :=
  ⟨c4_api_error_sentinels.1,
   c4_api_error_sentinels.2.2.2.2.2 [(1, "Action"), (2, "Comedy")] (by decide)⟩

end MovieAtlas
